import Mathlib

/- Verification of the chat-widget response-normalization and session-continuity
   layer (source: `utils/session.ts` and `hooks/useChatbot.ts`).

   JSON/JS values are modelled by `JVal`.  A JS `undefined` (the result of
   reading a missing property) is `JVal.undefined`; it is not JSON-representable
   but arises during property access.  Property access on `null`/`undefined`
   throws in JS; throwing code paths are modelled with `Except String`. -/

inductive JVal where
  | undefined : JVal
  | null : JVal
  | bool : Bool → JVal
  | num : Int → JVal
  | str : String → JVal
  | arr : List JVal → JVal
  | obj : List (String × JVal) → JVal
deriving Repr, Inhabited

/-- Join with commas, as JS `Array.prototype.toString` does. -/
def commaJoin : List String → String
  | [] => ""
  | [s] => s
  | s :: rest => s ++ "," ++ commaJoin rest

mutual
/-- JS `String(v)` coercion, as used by template literals in the source. -/
def jsToString : JVal → String
  | .undefined => "undefined"
  | .null => "null"
  | .bool b => cond b "true" "false"
  | .num n => toString n
  | .str s => s
  | .arr xs => commaJoin (arrElemStrings xs)
  | .obj _ => "[object Object]"

/-- Elements of an array as JS stringifies them inside `Array.toString`
    (where `null`/`undefined` elements become the empty string). -/
def arrElemStrings : List JVal → List String
  | [] => []
  | x :: xs =>
    (match x with
     | .undefined => ""
     | .null => ""
     | v => jsToString v) :: arrElemStrings xs
end

def startsWithCL : List Char → List Char → Bool
  | [], _ => true
  | _ :: _, [] => false
  | p :: ps, h :: hs => p == h && startsWithCL ps hs

def containsCL : List Char → List Char → Bool
  | [], sub => sub.isEmpty
  | h :: t, sub => startsWithCL sub (h :: t) || containsCL t sub

/-- JS `hay.includes(sub)` substring test. -/
def strIncludes (hay sub : String) : Bool := containsCL hay.data sub.data

/-- JS `s.toLowerCase()` (ASCII, which covers all strings the source compares). -/
def lowerStr (s : String) : String := String.mk (s.data.map Char.toLower)

def jLookup : List (String × JVal) → String → Option JVal
  | [], _ => none
  | (k, v) :: rest, key => if k = key then some v else jLookup rest key

/-- Pure property read `v[k]`: `undefined` when the key is missing or the
    base is a primitive.  Only used where the base is known not to be
    `null`/`undefined` (where JS would not throw). -/
def JVal.getP : JVal → String → JVal
  | .obj fs, k => (jLookup fs k).getD .undefined
  | _, _ => .undefined

/-- Property read `v[k]` that throws (TypeError) on `null`/`undefined` bases,
    exactly as JS does. -/
def jget : JVal → String → Except String JVal
  | .null, _ => .error "TypeError: cannot read properties of null"
  | .undefined, _ => .error "TypeError: cannot read properties of undefined"
  | .obj fs, k => .ok ((jLookup fs k).getD .undefined)
  | _, _ => .ok .undefined

/-- JS `'k' in v`: throws on primitive bases, key test on objects, `false`
    on arrays (none of the keys the source tests is an array index). -/
def jHasKey : JVal → String → Except String Bool
  | .obj fs, k => .ok ((jLookup fs k).isSome)
  | .arr _, _ => .ok false
  | _, _ => .error "TypeError: cannot use in operator on a primitive"

/-- JS truthiness. -/
def truthy : JVal → Bool
  | .undefined => false
  | .null => false
  | .bool b => b
  | .num n => n != 0
  | .str s => s != ""
  | .arr _ => true
  | .obj _ => true

/-- JS `a || b` (value-returning or). -/
def jOr (a b : JVal) : JVal := if truthy a then a else b

/-- JS `typeof v === 'object'` — true for objects, arrays AND `null`. -/
def isObjectType : JVal → Bool
  | .null => true
  | .arr _ => true
  | .obj _ => true
  | _ => false

def JVal.isNull : JVal → Bool
  | .null => true
  | _ => false

/-- JS strict equality `v === s` against a string literal. -/
def JVal.isStrEq (v : JVal) (s : String) : Bool :=
  match v with
  | .str t => t == s
  | _ => false

/-- The `{ value, label }` object built by the slot-unwrapping sites
    (useChatbot lines 193-196, 219-222, 246-249):
    `value: s.start || s.startTimeDisplay`,
    `` label: `${s.startTimeDisplay || s.start} - ${s.endTimeDisplay || ''}` ``. -/
def mkSlot (st sd ed : JVal) : JVal :=
  .obj [("value", jOr st sd),
        ("label", .str (jsToString (jOr sd st) ++ " - " ++ jsToString (jOr ed (.str ""))))]

/-- Error-propagating map, mirroring JS `Array.prototype.map` where the
    callback may throw. -/
def mapME (f : JVal → Except String JVal) : List JVal → Except String (List JVal)
  | [] => .ok []
  | x :: xs => do
    let y ← f x
    let rest ← mapME f xs
    pure (y :: rest)

/-- Callback of the array-branch map (useChatbot lines 189-199):
    `const s = record.slot` (throws when the element is `null`),
    then unwrap when `s && (s.start || s.startTimeDisplay)`,
    else return the element unchanged. -/
def mapArrayItem (item : JVal) : Except String JVal :=
  match jget item "slot" with
  | .error e => .error e
  | .ok s =>
    if truthy s && (truthy (s.getP "start") || truthy (s.getP "startTimeDisplay")) then
      .ok (mkSlot (s.getP "start") (s.getP "startTimeDisplay") (s.getP "endTimeDisplay"))
    else
      .ok item

/-- Filter of the object-map branch (useChatbot lines 230-238): keeps values
    that are non-null objects with `value`+`label`, or with a `slot` key whose
    value has `typeof === 'object'` (which includes `null`). -/
def looksLikeSlot (v : JVal) : Bool :=
  if !(isObjectType v) || v.isNull then false
  else
    match v with
    | .obj fs =>
      if (jLookup fs "value").isSome && (jLookup fs "label").isSome then true
      else
        match jLookup fs "slot" with
        | some sv => isObjectType sv
        | none => false
    | _ => false

/-- Map of the object-map branch (useChatbot lines 241-252): unwraps
    `r.slot` with NO null check — `s.start` throws when `r.slot === null`. -/
def mapObjValue (v : JVal) : Except String JVal :=
  match v with
  | .obj fs =>
    match jLookup fs "slot" with
    | some sv =>
      if isObjectType sv then
        match jget sv "start" with
        | .error e => .error e
        | .ok stv => .ok (mkSlot stv (sv.getP "startTimeDisplay") (sv.getP "endTimeDisplay"))
      else .ok v
    | none => .ok v
  | _ => .ok v

/-- Branch 4 of the non-array-object case (useChatbot lines 227-254):
    treat the object as a map, filter candidate values, unwrap them. -/
def objMapBranch (fs : List (String × JVal)) : Except String (List JVal) :=
  let values := fs.map Prod.snd
  let potentialSlots := values.filter looksLikeSlot
  if potentialSlots.length > 0 then mapME mapObjValue potentialSlots
  else .ok []

/-- Slot normalization: useChatbot lines 170-255, producing `finalSlots`.
    A string is JSON-parsed first (`parse` stands for `JSON.parse`; `none`
    models a parse failure, which leaves the string in place so that it
    falls through every branch). -/
def normalizeSlots (parse : String → Option JVal) (rawSlots : JVal) :
    Except String (List JVal) :=
  let parsedSlots :=
    match rawSlots with
    | .str s => (parse s).getD rawSlots
    | _ => rawSlots
  match parsedSlots with
  | .arr xs =>
    match xs with
    | [] => .ok []
    | x :: _ =>
      if truthy x then
        match jHasKey x "slot" with
        | .error e => .error e
        | .ok true => mapME mapArrayItem xs
        | .ok false => .ok xs
      else .ok xs
  | .obj fs =>
    match (jLookup fs "slots").getD .undefined with
    | .arr ys => .ok ys
    | _ =>
      if (jLookup fs "value").isSome && (jLookup fs "label").isSome then
        .ok [JVal.obj fs]
      else
        match jLookup fs "slot" with
        | some sv =>
          if isObjectType sv && !(sv.isNull) then
            if truthy (sv.getP "start") || truthy (sv.getP "startTimeDisplay") then
              .ok [mkSlot (sv.getP "start") (sv.getP "startTimeDisplay")
                     (sv.getP "endTimeDisplay")]
            else .ok []
          else objMapBranch fs
        | none => objMapBranch fs
  | _ => .ok []

/-- Default slots substituted when `finalSlots` is empty (lines 257-263). -/
def defaultSlots : List JVal :=
  [.obj [("value", .str "morning"), ("label", .str "Morning")],
   .obj [("value", .str "afternoon"), ("label", .str "Afternoon")],
   .obj [("value", .str "evening"), ("label", .str "Evening")]]

/-- Reply extraction (line 157):
    `data.output || data.reply || data.response || data.message || data.text
     || (typeof data === 'string' ? data : '')`.
    Pure because it is only evaluated after `data.error` succeeded, so `data`
    is not `null`/`undefined`. -/
def extractBotReplyP (data : JVal) : JVal :=
  jOr (data.getP "output") (jOr (data.getP "reply") (jOr (data.getP "response")
    (jOr (data.getP "message") (jOr (data.getP "text")
      (match data with
       | .str _ => data
       | _ => .str "")))))

def formPhrase1 : String := "use the form below"
def formPhrase2 : String := "fill out the form"

/-- Form-intent decision (lines 164-165).  `botReply.toLowerCase()` throws
    when `botReply` is truthy but not a string. -/
def shouldShowFormE (action botReply : JVal) : Except String Bool :=
  if action.isStrEq "render_form" || action.isStrEq "show_form" then .ok true
  else if truthy botReply then
    match botReply with
    | .str s =>
      .ok (strIncludes (lowerStr s) formPhrase1 || strIncludes (lowerStr s) formPhrase2)
    | _ => .error "TypeError: botReply.toLowerCase is not a function"
  else .ok false

inductive Sender where
  | user : Sender
  | bot : Sender
deriving Repr

/-- A conversation message; ids are abstracted away (they are time/random
    based and carry no logic). -/
structure ChatMessage where
  sender : Sender
  text : JVal
deriving Repr

structure FormState where
  isVisible : Bool
  slots : List JVal
  initialMessage : JVal
deriving Repr

structure EngineState where
  messages : List ChatMessage
  isLoading : Bool
  formState : FormState
deriving Repr

/-- `addMessage('bot', t)` (also modelling that React state appends). -/
def addBot (st : EngineState) (t : JVal) : EngineState :=
  { st with messages := st.messages ++ [⟨Sender.bot, t⟩] }

def serverNoResponseMsg : String :=
  "I received your message, but the server didn\x27t return a response. Please check your n8n workflow configuration."

def readySchedule : String := "We\x27re ready to schedule your call."

def connectApology : String := "Sorry, I\x27m having trouble connecting. Please try again."

/-- Processing of a successfully parsed response body `data`
    (useChatbot lines 147-281).  An `Except.error` result models a thrown
    TypeError; it carries the engine state at the moment of the throw,
    since message appends made before the throw have already taken effect. -/
def processData (parse : String → Option JVal) (data : JVal) (st : EngineState) :
    Except EngineState (EngineState × JVal) :=
  match jget data "error" with
  | .error _ => .error st
  | .ok errv =>
    if truthy errv then
      let errorReply := jOr (data.getP "message") (JVal.str serverNoResponseMsg)
      .ok (addBot st errorReply, errorReply)
    else
      let botReply := extractBotReplyP data
      let action := data.getP "action"
      let st1 := if truthy botReply && !(action.isStrEq "conversation_end")
                 then addBot st botReply else st
      match shouldShowFormE action botReply with
      | .error _ => .error st1
      | .ok ssf =>
        let st2res : Except EngineState EngineState :=
          if ssf then
            match normalizeSlots parse (data.getP "slots") with
            | .error _ => .error st1
            | .ok finalSlots =>
              let slots := if finalSlots.length > 0 then finalSlots else defaultSlots
              .ok { st1 with
                      formState := ⟨true, slots, jOr botReply (JVal.str readySchedule)⟩ }
          else .ok st1
        match st2res with
        | .error e => .error e
        | .ok st2 =>
          let st3 := if action.isStrEq "conversation_end" then
                       let stc := { st2 with formState := ⟨false, [], JVal.str ""⟩ }
                       if truthy botReply then addBot stc botReply else stc
                     else st2
          .ok (st3, botReply)

/-- Session layer (utils/session.ts + the `sessionIdRef` of useChatbot):
    `cached` is the in-memory ref, `stored` the localStorage entry. -/
structure SessionState where
  cached : Option String
  stored : Option String
deriving Repr, DecidableEq

/-- `ensureSessionId` (useChatbot lines 72-87).  `createIfMissing : Option
    Bool` models the optional flag (`none` = absent, which is NOT `=== false`);
    `gen` stands for the freshly generated random identifier. -/
def ensureSessionId (createIfMissing : Option Bool) (gen : String) (s : SessionState) :
    SessionState × Option String :=
  match s.cached with
  | some id => (s, some id)
  | none =>
    match s.stored with
    | some id => ({ s with cached := some id }, some id)
    | none =>
      match createIfMissing with
      | some false => (s, none)
      | _ => ({ cached := some gen, stored := some gen }, some gen)

inductive UserInput where
  | text : String → UserInput
  | payload : List (String × JVal) → UserInput
deriving Repr

/-- Outcome of the `fetch` + `response.json()` pair, as seen by the engine:
    network rejection, non-ok HTTP status, ok status with unparseable body,
    or ok status with parsed JSON `data`. -/
inductive Transport where
  | netError : Transport
  | httpError : Transport
  | badJson : Transport
  | success : JVal → Transport
deriving Repr

/-- The guard `!userText && !isObjectPayload` at useChatbot line 93. -/
def isEmptyText : UserInput → Bool
  | .text s => s == ""
  | .payload _ => false

/-- Observable outcome of one `sendMessageToBot` call: final engine state,
    final session state, whether `ensureSessionId`/`fetch` ran, and the
    returned value (`none` models returning `undefined`). -/
structure SendOutcome where
  engine : EngineState
  session : SessionState
  ensureCalled : Bool
  fetched : Bool
  result : Option JVal
deriving Repr

/-- `sendMessageToBot` (useChatbot lines 89-296).  The transport outcome and
    the generated session id are parameters; every transport failure and
    every TypeError thrown while processing the body lands in the `catch`
    block, which appends the connectivity apology; the `finally` clears the
    loading flag on every path that set it. -/
def sendMessageToBot (parse : String → Option JVal) (gen : String) (t : Transport)
    (input : UserInput) (st : EngineState) (ss : SessionState) : SendOutcome :=
  if isEmptyText input then ⟨st, ss, false, false, none⟩
  else
    let st0 : EngineState := match input with
      | .text s => { st with messages := st.messages ++ [⟨Sender.user, JVal.str s⟩] }
      | .payload _ => st
    let st1 := { st0 with isLoading := true }
    let ss1 := (ensureSessionId (some true) gen ss).1
    match t with
    | .success data =>
      match processData parse data st1 with
      | .ok (st2, ret) => ⟨{ st2 with isLoading := false }, ss1, true, true, some ret⟩
      | .error stE =>
        ⟨{ addBot stE (JVal.str connectApology) with isLoading := false },
          ss1, true, true, some (JVal.str connectApology)⟩
    | _ =>
      ⟨{ addBot st1 (JVal.str connectApology) with isLoading := false },
        ss1, true, true, some (JVal.str connectApology)⟩

/-- An engine state as `useChatbot` initializes it (lines 53-59). -/
def initState : EngineState := ⟨[], false, ⟨false, [], JVal.str ""⟩⟩

/-- A `JSON.parse` stand-in for inputs that contain no string-valued slots
    (it is never consulted there). -/
def noParse : String → Option JVal := fun _ => none

/-- Modelled from the claim wording of C3 (spec section 4.3 step 2): unwrap
    an array element through its `slot` key into `{ value, label }`, passing
    elements without a usable `slot` through unchanged.  Used only to compare
    the source-derived `normalizeSlots` against the spec sentence. -/
def slotUnwrapSpec (item : JVal) : JVal :=
  let s := item.getP "slot"
  if truthy s && (truthy (s.getP "start") || truthy (s.getP "startTimeDisplay")) then
    mkSlot (s.getP "start") (s.getP "startTimeDisplay") (s.getP "endTimeDisplay")
  else item


/- Helper lemmas (shared; not claim theorems). -/

theorem mapME_eq_map (f : JVal → Except String JVal) (g : JVal → JVal)
    (l : List JVal) (h : ∀ e ∈ l, f e = .ok (g e)) :
    mapME f l = .ok (l.map g) := by
  induction l with
  | nil => rfl
  | cons x xs ih =>
    simp only [mapME, List.map]
    rw [h x (by simp), ih (fun e he => h e (by simp [he]))]
    rfl

theorem mapArrayItem_ok (e : JVal) (h1 : e ≠ JVal.null) (h2 : e ≠ JVal.undefined) :
    mapArrayItem e = .ok (slotUnwrapSpec e) := by
  cases e with
  | null => exact absurd rfl h1
  | undefined => exact absurd rfl h2
  | obj fs =>
    simp only [mapArrayItem, slotUnwrapSpec, jget, JVal.getP]
    split <;> rfl
  | bool b => rfl
  | num n => rfl
  | str s => rfl
  | arr xs => rfl

/-- C1: slot normalization is NOT total.  At the failing input
    `data.slots = {"a": {"slot": null}}` the object-map branch passes the
    `typeof r.slot === 'object'` filter (true for `null`) and then reads
    `s.start` off `null`, throwing a TypeError; at engine level the outer
    catch turns this into a connectivity apology and the form never opens,
    instead of degrading to the default slot list as the claim states. -/
theorem c1_null_slot_throws :
    normalizeSlots noParse (JVal.obj [("a", JVal.obj [("slot", JVal.null)])])
      = .error "TypeError: cannot read properties of null"
    ∧ sendMessageToBot noParse "sid"
        (.success (.obj [("action", .str "render_form"),
                         ("slots", .obj [("a", .obj [("slot", JVal.null)])])]))
        (.text "hi") initState ⟨none, none⟩
      = ⟨⟨[⟨Sender.user, .str "hi"⟩, ⟨Sender.bot, .str connectApology⟩], false,
          ⟨false, [], .str ""⟩⟩,
         ⟨some "sid", some "sid"⟩, true, true, some (.str connectApology)⟩ :=
  ⟨rfl, rfl⟩

/-- C7: two `ensureSessionId` calls with `createIfMissing = true` and no
    intervening clear return the identical (present) identifier. -/
theorem c7_ensure_idempotent (s : SessionState) (g1 g2 : String) :
    (ensureSessionId (some true) g2 (ensureSessionId (some true) g1 s).1).2
      = (ensureSessionId (some true) g1 s).2
    ∧ ((ensureSessionId (some true) g1 s).2).isSome = true := by
  rcases s with ⟨c, st⟩
  cases c <;> cases st <;> simp [ensureSessionId]

/-- C10: sending the empty plain-text string is a complete no-op: no message
    appended, loading flag untouched, session neither read nor created, no
    request made, and `undefined` returned. -/
theorem c10_empty_send_noop (parse : String → Option JVal) (gen : String)
    (t : Transport) (st : EngineState) (ss : SessionState) :
    sendMessageToBot parse gen t (UserInput.text "") st ss
      = ⟨st, ss, false, false, none⟩ := rfl

/-- C2: reply-text extraction follows the precedence order `output`, `reply`,
    `response`, `message`, `text` (first non-empty/truthy wins), then `data`
    itself when `data` is a string, else the empty string; and for
    `{"reply": "hello"}` the engine extracts "hello", appends it as the one
    bot message, and neither form nor conversation-end behavior triggers
    (form state unchanged). -/
theorem c2_reply_precedence :
    (∀ fs : List (String × JVal), truthy ((JVal.obj fs).getP "output") = true →
       extractBotReplyP (JVal.obj fs) = (JVal.obj fs).getP "output")
  ∧ (∀ fs : List (String × JVal), truthy ((JVal.obj fs).getP "output") = false →
       truthy ((JVal.obj fs).getP "reply") = true →
       extractBotReplyP (JVal.obj fs) = (JVal.obj fs).getP "reply")
  ∧ (∀ fs : List (String × JVal), truthy ((JVal.obj fs).getP "output") = false →
       truthy ((JVal.obj fs).getP "reply") = false →
       truthy ((JVal.obj fs).getP "response") = true →
       extractBotReplyP (JVal.obj fs) = (JVal.obj fs).getP "response")
  ∧ (∀ fs : List (String × JVal), truthy ((JVal.obj fs).getP "output") = false →
       truthy ((JVal.obj fs).getP "reply") = false →
       truthy ((JVal.obj fs).getP "response") = false →
       truthy ((JVal.obj fs).getP "message") = true →
       extractBotReplyP (JVal.obj fs) = (JVal.obj fs).getP "message")
  ∧ (∀ fs : List (String × JVal), truthy ((JVal.obj fs).getP "output") = false →
       truthy ((JVal.obj fs).getP "reply") = false →
       truthy ((JVal.obj fs).getP "response") = false →
       truthy ((JVal.obj fs).getP "message") = false →
       truthy ((JVal.obj fs).getP "text") = true →
       extractBotReplyP (JVal.obj fs) = (JVal.obj fs).getP "text")
  ∧ (∀ fs : List (String × JVal), truthy ((JVal.obj fs).getP "output") = false →
       truthy ((JVal.obj fs).getP "reply") = false →
       truthy ((JVal.obj fs).getP "response") = false →
       truthy ((JVal.obj fs).getP "message") = false →
       truthy ((JVal.obj fs).getP "text") = false →
       extractBotReplyP (JVal.obj fs) = JVal.str "")
  ∧ (∀ s : String, extractBotReplyP (JVal.str s) = JVal.str s)
  ∧ sendMessageToBot noParse "sid" (.success (.obj [("reply", .str "hello")]))
      (.text "hi") initState ⟨none, none⟩
    = ⟨⟨[⟨Sender.user, .str "hi"⟩, ⟨Sender.bot, .str "hello"⟩], false,
        ⟨false, [], .str ""⟩⟩,
       ⟨some "sid", some "sid"⟩, true, true, some (.str "hello")⟩ := by
  refine ⟨?_, ?_, ?_, ?_, ?_, ?_, ?_, rfl⟩
  · intro fs h1; simp [extractBotReplyP, jOr, h1]
  · intro fs h1 h2; simp [extractBotReplyP, jOr, h1, h2]
  · intro fs h1 h2 h3; simp [extractBotReplyP, jOr, h1, h2, h3]
  · intro fs h1 h2 h3 h4; simp [extractBotReplyP, jOr, h1, h2, h3, h4]
  · intro fs h1 h2 h3 h4 h5; simp [extractBotReplyP, jOr, h1, h2, h3, h4, h5]
  · intro fs h1 h2 h3 h4 h5; simp [extractBotReplyP, jOr, h1, h2, h3, h4, h5]
  · intro s; simp [extractBotReplyP, JVal.getP, jOr, truthy]

/-- Witness for C2: instantiates the `reply` conjunct at the concrete input
    `{"reply": "hello"}`. -/
theorem c2_reply_precedence_witness :
    extractBotReplyP (JVal.obj [("reply", JVal.str "hello")])
      = (JVal.obj [("reply", JVal.str "hello")]).getP "reply" :=
  c2_reply_precedence.2.1 [("reply", JVal.str "hello")] rfl rfl

/-- C3 counterexample: the claim says EVERY element of an array whose first
    element carries a `slot` key is either unwrapped or passed through
    unchanged, but a `null` element makes the map throw a TypeError
    (`record.slot` on `null`), so the result is an error, not a slot list. -/
theorem c3_null_element_cex :
    normalizeSlots noParse
      (.arr [.obj [("slot", .obj [("start", .str "2024-01-01T10:00:00Z")])], JVal.null])
      = .error "TypeError: cannot read properties of null" := rfl

/-- C3 (amended): for an array-valued slots input whose first element is an
    object with a `slot` key and whose elements are all non-null, every
    element is mapped by `slotUnwrapSpec` — unwrap `element.slot` into
    `{ value, label }` when the slot has a truthy `start` or
    `startTimeDisplay`, pass the element through unchanged otherwise — and
    the concrete example yields value "2024-01-01T10:00:00Z",
    label "10:00 AM - 10:30 AM". -/
theorem c3_array_slot_unwrap (parse : String → Option JVal)
    (ffs : List (String × JVal)) (rest : List JVal)
    (hslot : (jLookup ffs "slot").isSome = true)
    (hclean : ∀ e ∈ (JVal.obj ffs :: rest), e ≠ JVal.null ∧ e ≠ JVal.undefined) :
    normalizeSlots parse (JVal.arr (JVal.obj ffs :: rest))
      = .ok ((JVal.obj ffs :: rest).map slotUnwrapSpec)
    ∧ normalizeSlots noParse
        (.arr [.obj [("slot", .obj [("start", .str "2024-01-01T10:00:00Z"),
                                    ("startTimeDisplay", .str "10:00 AM"),
                                    ("endTimeDisplay", .str "10:30 AM")])]])
      = .ok [.obj [("value", .str "2024-01-01T10:00:00Z"),
                   ("label", .str "10:00 AM - 10:30 AM")]] := by
  constructor
  · simp only [normalizeSlots, truthy, jHasKey, hslot, if_true]
    exact mapME_eq_map _ _ _ (fun e he => mapArrayItem_ok e (hclean e he).1 (hclean e he).2)
  · rfl

/-- Witness for C3: instantiates the amended mapping theorem at a concrete
    one-element array. -/
theorem c3_array_slot_unwrap_witness :
    normalizeSlots noParse (JVal.arr [JVal.obj [("slot", JVal.obj [("start", JVal.str "9 AM")])]])
      = .ok ([JVal.obj [("slot", JVal.obj [("start", JVal.str "9 AM")])]].map slotUnwrapSpec)
    ∧ normalizeSlots noParse
        (.arr [.obj [("slot", .obj [("start", .str "2024-01-01T10:00:00Z"),
                                    ("startTimeDisplay", .str "10:00 AM"),
                                    ("endTimeDisplay", .str "10:30 AM")])]])
      = .ok [.obj [("value", .str "2024-01-01T10:00:00Z"),
                   ("label", .str "10:00 AM - 10:30 AM")]] :=
  c3_array_slot_unwrap noParse [("slot", JVal.obj [("start", JVal.str "9 AM")])] [] rfl
    (by
      intro e he
      rcases List.mem_singleton.mp he with rfl
      exact ⟨by simp, by simp⟩)

/-- C4: with an absent or unrecognized action, form intent is inferred iff
    the (string) reply text case-insensitively contains "use the form below"
    or "fill out the form"; and for `{"message": "Use the form below to
    book."}` with no slots field the engine opens the form with exactly the
    three default slots morning/afternoon/evening. -/
theorem c4_form_intent (action : JVal) (s : String)
    (h1 : action.isStrEq "render_form" = false)
    (h2 : action.isStrEq "show_form" = false) :
    shouldShowFormE action (JVal.str s)
      = .ok (strIncludes (lowerStr s) formPhrase1 || strIncludes (lowerStr s) formPhrase2)
    ∧ sendMessageToBot noParse "sid"
        (.success (.obj [("message", .str "Use the form below to book.")]))
        (.text "book me") initState ⟨none, none⟩
      = ⟨⟨[⟨Sender.user, .str "book me"⟩, ⟨Sender.bot, .str "Use the form below to book."⟩],
          false, ⟨true, defaultSlots, .str "Use the form below to book."⟩⟩,
         ⟨some "sid", some "sid"⟩, true, true,
         some (.str "Use the form below to book.")⟩ := by
  constructor
  · by_cases hs : s = ""
    · subst hs
      simp only [shouldShowFormE, h1, h2, Bool.or_self, Bool.false_eq_true, if_false]
      rfl
    · simp [shouldShowFormE, h1, h2, truthy, hs]
  · rfl

/-- Witness for C4: the inference formula at an absent action and the reply
    "hello" (which contains neither trigger phrase). -/
theorem c4_form_intent_witness :
    shouldShowFormE JVal.undefined (JVal.str "hello")
      = .ok (strIncludes (lowerStr "hello") formPhrase1
             || strIncludes (lowerStr "hello") formPhrase2)
    ∧ sendMessageToBot noParse "sid"
        (.success (.obj [("message", .str "Use the form below to book.")]))
        (.text "book me") initState ⟨none, none⟩
      = ⟨⟨[⟨Sender.user, .str "book me"⟩, ⟨Sender.bot, .str "Use the form below to book."⟩],
          false, ⟨true, defaultSlots, .str "Use the form below to book."⟩⟩,
         ⟨some "sid", some "sid"⟩, true, true,
         some (.str "Use the form below to book.")⟩ :=
  c4_form_intent JVal.undefined "hello" rfl rfl

theorem processData_cend_aux (parse : String → Option JVal) (fs : List (String × JVal))
    (st st' : EngineState) (r : JVal)
    (hact : (jLookup fs "action").getD JVal.undefined = JVal.str "conversation_end")
    (herr : truthy ((jLookup fs "error").getD JVal.undefined) = false)
    (hok : processData parse (JVal.obj fs) st = .ok (st', r)) :
    st'.formState = ⟨false, [], JVal.str ""⟩
    ∧ r = extractBotReplyP (JVal.obj fs)
    ∧ st'.messages = (if truthy (extractBotReplyP (JVal.obj fs)) then
        st.messages ++ [⟨Sender.bot, extractBotReplyP (JVal.obj fs)⟩] else st.messages) := by
  simp only [processData, jget, JVal.getP, hact, herr, JVal.isStrEq, beq_self_eq_true,
    Bool.not_true, Bool.and_false, Bool.false_eq_true, if_false, if_true, addBot] at hok
  split at hok
  · exact absurd hok (by simp)
  · split at hok
    · exact absurd hok (by simp)
    · rename_i st2 heq2
      injection hok with hpair
      injection hpair with h1 h2
      subst h1
      subst h2
      split at heq2
      · split at heq2
        · exact absurd heq2 (by simp)
        · injection heq2 with h3
          subst h3
          cases hbr : truthy (extractBotReplyP (JVal.obj fs)) <;> simp [hbr]
      · injection heq2 with h3
        subst h3
        cases hbr : truthy (extractBotReplyP (JVal.obj fs)) <;> simp [hbr]

/-- C5: on a successful response whose action is `conversation_end` (and no
    top-level error), the engine clears the form state (hidden, empty slots,
    empty message) and appends the reply as a bot message iff the reply text
    is truthy/non-empty; for `{"action":"conversation_end","reply":""}` the
    form state is cleared and no bot message is appended. -/
theorem c5_conversation_end_clears (parse : String → Option JVal) (data : JVal)
    (st st' : EngineState) (r : JVal)
    (hact : data.getP "action" = JVal.str "conversation_end")
    (herr : truthy (data.getP "error") = false)
    (hok : processData parse data st = .ok (st', r)) :
    (st'.formState = ⟨false, [], JVal.str ""⟩
     ∧ r = extractBotReplyP data
     ∧ st'.messages = (if truthy r then st.messages ++ [⟨Sender.bot, r⟩] else st.messages))
    ∧ sendMessageToBot noParse "sid"
        (.success (.obj [("action", .str "conversation_end"), ("reply", .str "")]))
        (.text "bye") ⟨[], false, ⟨true, defaultSlots, .str "x"⟩⟩ ⟨none, none⟩
      = ⟨⟨[⟨Sender.user, .str "bye"⟩], false, ⟨false, [], .str ""⟩⟩,
         ⟨some "sid", some "sid"⟩, true, true, some (.str "")⟩ := by
  constructor
  · cases data with
    | obj fs =>
      obtain ⟨p1, p2, p3⟩ := processData_cend_aux parse fs st st' r
        (by simpa [JVal.getP] using hact) (by simpa [JVal.getP] using herr) hok
      exact ⟨p1, p2, by rw [p2]; exact p3⟩
    | undefined => simp [JVal.getP] at hact
    | null => simp [JVal.getP] at hact
    | bool b => simp [JVal.getP] at hact
    | num n => simp [JVal.getP] at hact
    | str s => simp [JVal.getP] at hact
    | arr xs => simp [JVal.getP] at hact
  · rfl

/-- Witness for C5: the theorem applied at the concrete response
    `{"action":"conversation_end","reply":""}` against a state with the form
    open. -/
theorem c5_conversation_end_clears_witness :
    ((⟨[], false, ⟨false, [], JVal.str ""⟩⟩ : EngineState).formState = ⟨false, [], JVal.str ""⟩
     ∧ (JVal.str "" : JVal)
         = extractBotReplyP (JVal.obj [("action", .str "conversation_end"), ("reply", .str "")])
     ∧ (⟨[], false, ⟨false, [], JVal.str ""⟩⟩ : EngineState).messages
         = (if truthy (JVal.str "") then
              ([] : List ChatMessage) ++ [⟨Sender.bot, JVal.str ""⟩] else []))
    ∧ sendMessageToBot noParse "sid"
        (.success (.obj [("action", .str "conversation_end"), ("reply", .str "")]))
        (.text "bye") ⟨[], false, ⟨true, defaultSlots, .str "x"⟩⟩ ⟨none, none⟩
      = ⟨⟨[⟨Sender.user, .str "bye"⟩], false, ⟨false, [], .str ""⟩⟩,
         ⟨some "sid", some "sid"⟩, true, true, some (.str "")⟩ :=
  c5_conversation_end_clears noParse
    (JVal.obj [("action", .str "conversation_end"), ("reply", .str "")])
    ⟨[], false, ⟨true, defaultSlots, .str "x"⟩⟩
    ⟨[], false, ⟨false, [], JVal.str ""⟩⟩ (JVal.str "") rfl rfl rfl

/-- C6: on a transport failure (network rejection or non-ok HTTP status) the
    engine appends exactly one bot message — the connectivity apology — and
    returns that same text instead of raising; moreover the loading flag is
    false after the call settles on EVERY transport outcome. -/
theorem c6_transport_failure (parse : String → Option JVal) (gen : String)
    (t : Transport) (input : UserInput) (st : EngineState) (ss : SessionState)
    (hin : isEmptyText input = false)
    (ht : t = Transport.netError ∨ t = Transport.httpError) :
    ((sendMessageToBot parse gen t input st ss).engine.messages
       = (match input with
          | .text s => st.messages ++ [⟨Sender.user, JVal.str s⟩]
          | .payload _ => st.messages) ++ [⟨Sender.bot, JVal.str connectApology⟩])
    ∧ (sendMessageToBot parse gen t input st ss).result = some (JVal.str connectApology)
    ∧ (∀ t' : Transport, (sendMessageToBot parse gen t' input st ss).engine.isLoading = false) := by
  refine ⟨?_, ?_, ?_⟩
  · rcases ht with rfl | rfl <;> rcases input with s | pfs <;>
      simp [sendMessageToBot, hin, addBot] at *
  · rcases ht with rfl | rfl <;>
      simp [sendMessageToBot, hin]
  · intro t'
    rcases t' with _ | _ | _ | d
    · simp only [sendMessageToBot, hin, Bool.false_eq_true, if_false]
    · simp only [sendMessageToBot, hin, Bool.false_eq_true, if_false]
    · simp only [sendMessageToBot, hin, Bool.false_eq_true, if_false]
    · simp only [sendMessageToBot, hin, Bool.false_eq_true, if_false]
      split <;> rfl

/-- Witness for C6: a network rejection of "hi" from the initial state. -/
theorem c6_transport_failure_witness :
    ((sendMessageToBot noParse "sid" Transport.netError (.text "hi") initState ⟨none, none⟩).engine.messages
       = (match (UserInput.text "hi") with
          | .text s => initState.messages ++ [⟨Sender.user, JVal.str s⟩]
          | .payload _ => initState.messages) ++ [⟨Sender.bot, JVal.str connectApology⟩])
    ∧ (sendMessageToBot noParse "sid" Transport.netError (.text "hi") initState ⟨none, none⟩).result
        = some (JVal.str connectApology)
    ∧ (∀ t' : Transport,
        (sendMessageToBot noParse "sid" t' (.text "hi") initState ⟨none, none⟩).engine.isLoading
          = false) :=
  c6_transport_failure noParse "sid" Transport.netError (.text "hi") initState ⟨none, none⟩
    rfl (Or.inl rfl)

/-- C8: a successful response with a truthy top-level `error` field
    short-circuits normalization: one bot message is appended whose text is
    `data.message` when truthy, else the fixed fallback apology; the form
    state is untouched; and the same text is returned. -/
theorem c8_error_short_circuit (parse : String → Option JVal) (data : JVal) (e : JVal)
    (st : EngineState)
    (he : jget data "error" = .ok e) (het : truthy e = true) :
    (processData parse data st
       = .ok (addBot st (jOr (data.getP "message") (JVal.str serverNoResponseMsg)),
              jOr (data.getP "message") (JVal.str serverNoResponseMsg))
     ∧ (addBot st (jOr (data.getP "message") (JVal.str serverNoResponseMsg))).formState
         = st.formState)
    ∧ sendMessageToBot noParse "sid"
        (.success (.obj [("error", .bool true), ("message", .str "oops")]))
        (.text "hi") initState ⟨none, none⟩
      = ⟨⟨[⟨Sender.user, .str "hi"⟩, ⟨Sender.bot, .str "oops"⟩], false, ⟨false, [], .str ""⟩⟩,
         ⟨some "sid", some "sid"⟩, true, true, some (.str "oops")⟩ := by
  refine ⟨⟨?_, rfl⟩, rfl⟩
  simp only [processData, he, het, if_true]

/-- Witness for C8: the theorem applied at `{"error": true, "message": "oops"}`. -/
theorem c8_error_short_circuit_witness :
    (processData noParse (JVal.obj [("error", .bool true), ("message", .str "oops")]) initState
       = .ok (addBot initState
                (jOr ((JVal.obj [("error", .bool true), ("message", .str "oops")]).getP "message")
                     (JVal.str serverNoResponseMsg)),
              jOr ((JVal.obj [("error", .bool true), ("message", .str "oops")]).getP "message")
                  (JVal.str serverNoResponseMsg))
     ∧ (addBot initState
          (jOr ((JVal.obj [("error", .bool true), ("message", .str "oops")]).getP "message")
               (JVal.str serverNoResponseMsg))).formState
         = initState.formState)
    ∧ sendMessageToBot noParse "sid"
        (.success (.obj [("error", .bool true), ("message", .str "oops")]))
        (.text "hi") initState ⟨none, none⟩
      = ⟨⟨[⟨Sender.user, .str "hi"⟩, ⟨Sender.bot, .str "oops"⟩], false, ⟨false, [], .str ""⟩⟩,
         ⟨some "sid", some "sid"⟩, true, true, some (.str "oops")⟩ :=
  c8_error_short_circuit noParse (JVal.obj [("error", .bool true), ("message", .str "oops")])
    (.bool true) initState rfl rfl

/-- C9: the conversation-end clearing runs after the form-intent branch, so
    whenever the action is `conversation_end` (and no top-level error) the
    final form state is hidden with empty slots and empty message — even
    though a reply like "Please fill out the form" makes the form-intent
    heuristic fire, as the second and third conjuncts exhibit concretely. -/
theorem c9_end_overrides_form (parse : String → Option JVal) (data : JVal)
    (st st' : EngineState) (r : JVal)
    (hact : data.getP "action" = JVal.str "conversation_end")
    (herr : truthy (data.getP "error") = false)
    (hok : processData parse data st = .ok (st', r)) :
    st'.formState = ⟨false, [], JVal.str ""⟩
    ∧ shouldShowFormE (JVal.str "conversation_end") (JVal.str "Please fill out the form")
        = .ok true
    ∧ sendMessageToBot noParse "sid"
        (.success (.obj [("action", .str "conversation_end"),
                         ("reply", .str "Please fill out the form")]))
        (.text "hi") initState ⟨none, none⟩
      = ⟨⟨[⟨Sender.user, .str "hi"⟩, ⟨Sender.bot, .str "Please fill out the form"⟩], false,
          ⟨false, [], .str ""⟩⟩,
         ⟨some "sid", some "sid"⟩, true, true, some (.str "Please fill out the form")⟩ := by
  refine ⟨?_, rfl, rfl⟩
  cases data with
  | obj fs =>
    exact (processData_cend_aux parse fs st st' r
      (by simpa [JVal.getP] using hact) (by simpa [JVal.getP] using herr) hok).1
  | undefined => simp [JVal.getP] at hact
  | null => simp [JVal.getP] at hact
  | bool b => simp [JVal.getP] at hact
  | num n => simp [JVal.getP] at hact
  | str s => simp [JVal.getP] at hact
  | arr xs => simp [JVal.getP] at hact

/-- Witness for C9: the theorem applied at `{"action":"conversation_end"}`
    from the initial state. -/
theorem c9_end_overrides_form_witness :
    (⟨[], false, ⟨false, [], JVal.str ""⟩⟩ : EngineState).formState = ⟨false, [], JVal.str ""⟩
    ∧ shouldShowFormE (JVal.str "conversation_end") (JVal.str "Please fill out the form")
        = .ok true
    ∧ sendMessageToBot noParse "sid"
        (.success (.obj [("action", .str "conversation_end"),
                         ("reply", .str "Please fill out the form")]))
        (.text "hi") initState ⟨none, none⟩
      = ⟨⟨[⟨Sender.user, .str "hi"⟩, ⟨Sender.bot, .str "Please fill out the form"⟩], false,
          ⟨false, [], .str ""⟩⟩,
         ⟨some "sid", some "sid"⟩, true, true, some (.str "Please fill out the form")⟩ :=
  c9_end_overrides_form noParse (JVal.obj [("action", .str "conversation_end")])
    initState ⟨[], false, ⟨false, [], JVal.str ""⟩⟩ (JVal.str "") rfl rfl rfl
